import Mathlib

/-!
Shallow embedding of the student-record store and filter/lookup layer of
`src/utils/students.js`. Records are a Lean structure with the same seven
string fields; the store is the literal 40-element list; each filter mirrors
the JavaScript `Array.prototype.filter` call with the same predicate
(case-insensitive comparison via lowercasing), and `findById` mirrors
`Array.prototype.find` with `Option` standing for the `null` fallback.
-/

namespace StudentsJs

/-- A student record: the seven string fields of each object in the
`students` array of `src/utils/students.js`. -/
structure Student where
  ID : String
  firstname : String
  lastname : String
  gender : String
  birthdate : String
  studysubject : String
  city : String
deriving DecidableEq, Repr

/-- The 40-record store, in the order of `src/utils/students.js`. -/
def students : List Student := [
  ⟨"S001", "Anna", "Schmidt", "female", "1998-03-15", "Physics", "Munich"⟩,
  ⟨"S002", "Ben", "Müller", "male", "1997-06-22", "Physics", "Vienna"⟩,
  ⟨"S003", "Clara", "Weber", "female", "1999-01-10", "Physics", "Prague"⟩,
  ⟨"S004", "David", "Fischer", "male", "1996-11-05", "Physics", "Madrid"⟩,
  ⟨"S005", "Emma", "Meyer", "female", "1998-07-19", "Physics", "Paris"⟩,
  ⟨"S006", "Finn", "Schulz", "male", "1997-04-12", "Physics", "Rome"⟩,
  ⟨"S007", "Greta", "Koch", "female", "1999-09-25", "Physics", "Munich"⟩,
  ⟨"S008", "Hannes", "Bauer", "male", "1996-12-30", "Physics", "Vienna"⟩,
  ⟨"S009", "Ida", "Richter", "female", "1998-02-08", "Physics", "Prague"⟩,
  ⟨"S010", "Jonas", "Schäfer", "male", "1997-08-14", "Physics", "Madrid"⟩,
  ⟨"S011", "Klara", "Wagner", "female", "1999-05-03", "Mathematics", "Paris"⟩,
  ⟨"S012", "Lars", "Becker", "male", "1996-10-17", "Mathematics", "Rome"⟩,
  ⟨"S013", "Mia", "Hofmann", "female", "1998-04-29", "Mathematics", "Munich"⟩,
  ⟨"S014", "Noah", "Schröder", "male", "1997-03-11", "Mathematics", "Vienna"⟩,
  ⟨"S015", "Olivia", "Neumann", "female", "1999-06-26", "Mathematics", "Prague"⟩,
  ⟨"S016", "Paul", "Schwarz", "male", "1996-09-08", "Mathematics", "Madrid"⟩,
  ⟨"S017", "Quinn", "Zimmermann", "female", "1998-01-14", "Mathematics", "Paris"⟩,
  ⟨"S018", "Ruben", "Krause", "male", "1997-07-20", "Mathematics", "Rome"⟩,
  ⟨"S019", "Sophie", "Schneider", "female", "1999-02-27", "Mathematics", "Munich"⟩,
  ⟨"S020", "Theo", "Schubert", "male", "1996-12-03", "Mathematics", "Vienna"⟩,
  ⟨"S021", "Ursula", "Fuchs", "female", "1998-08-16", "Computer Science", "Prague"⟩,
  ⟨"S022", "Viktor", "Schreiber", "male", "1997-05-09", "Computer Science", "Madrid"⟩,
  ⟨"S023", "Wanda", "Vogel", "female", "1999-03-22", "Computer Science", "Paris"⟩,
  ⟨"S024", "Xaver", "Wolff", "male", "1996-11-28", "Computer Science", "Rome"⟩,
  ⟨"S025", "Yara", "Schröter", "female", "1998-06-04", "Computer Science", "Munich"⟩,
  ⟨"S026", "Zane", "Fischer", "male", "1997-02-15", "Computer Science", "Vienna"⟩,
  ⟨"S027", "Alma", "Mayer", "female", "1999-07-31", "Computer Science", "Prague"⟩,
  ⟨"S028", "Bruno", "König", "male", "1996-10-23", "Computer Science", "Madrid"⟩,
  ⟨"S029", "Celine", "Schulz", "female", "1998-09-12", "Computer Science", "Paris"⟩,
  ⟨"S030", "Dorian", "Weber", "male", "1997-04-06", "Computer Science", "Rome"⟩,
  ⟨"S031", "Elisa", "Bauer", "female", "1999-01-19", "Medicine", "Munich"⟩,
  ⟨"S032", "Felix", "Richter", "male", "1996-08-02", "Medicine", "Vienna"⟩,
  ⟨"S033", "Gina", "Kuhn", "female", "1998-03-27", "Medicine", "Prague"⟩,
  ⟨"S034", "Henry", "Schäfer", "male", "1997-06-13", "Medicine", "Madrid"⟩,
  ⟨"S035", "Iris", "Wagner", "female", "1999-05-08", "Medicine", "Paris"⟩,
  ⟨"S036", "Julian", "Becker", "male", "1996-12-15", "Medicine", "Rome"⟩,
  ⟨"S037", "Kaja", "Hofmann", "female", "1998-02-21", "Medicine", "Munich"⟩,
  ⟨"S038", "Leon", "Schröder", "male", "1997-09-04", "Medicine", "Vienna"⟩,
  ⟨"S039", "Mira", "Neumann", "female", "1999-04-17", "Medicine", "Prague"⟩,
  ⟨"S040", "Nico", "Schwarz", "male", "1996-07-29", "Medicine", "Madrid"⟩,
]

/-- Models JavaScript `String.prototype.toLowerCase` as used in the filter
predicates: each character is mapped to its lowercase form. This is
extensionally `String.toLower` (`String.map Char.toLower`), restated on the
underlying character list so that the kernel can evaluate it. -/
def lower (s : String) : String := ⟨s.data.map Char.toLower⟩

/-- Embeds `filterByCity`: keeps students whose `city` lowercases to the
lowercase of the argument (case-insensitive equality). -/
def filterByCity (students : List Student) (city : String) : List Student :=
  students.filter (fun student => lower student.city == lower city)

/-- Embeds `filterBySubject`: keeps students whose `studysubject` lowercases
to the lowercase of the argument. -/
def filterBySubject (students : List Student) (subject : String) : List Student :=
  students.filter (fun student => lower student.studysubject == lower subject)

/-- Embeds `filterByGender`: keeps students whose `gender` lowercases to the
lowercase of the argument (case-insensitive equality). -/
def filterByGender (students : List Student) (gender : String) : List Student :=
  students.filter (fun student => lower student.gender == lower gender)

/-- Embeds `findById`: first student whose `ID` equals the argument exactly,
`none` for the JavaScript `null`. -/
def findById (students : List Student) (id : String) : Option Student :=
  students.find? (fun student => student.ID == id)

/-- Embeds `filterByName`: keeps students whose `firstname` or `lastname`
lowercases to the lowercase of the argument. -/
def filterByName (students : List Student) (name : String) : List Student :=
  students.filter (fun student =>
    lower student.firstname == lower name ||
    lower student.lastname == lower name)

/-- Helper: filtering by gender and then by subject equals one filter by the
conjunction of the two predicates, in store order. -/
theorem gender_then_subject_eq (l : List Student) (g s : String) :
    filterBySubject (filterByGender l g) s
      = l.filter (fun r => (lower r.gender == lower g) && (lower r.studysubject == lower s)) := by
  simp only [filterBySubject, filterByGender, List.filter_filter]
  exact List.filter_congr (fun x _ => Bool.and_comm _ _)

/-- Helper: filtering by subject and then by gender equals the same
conjunctive filter. -/
theorem subject_then_gender_eq (l : List Student) (g s : String) :
    filterByGender (filterBySubject l s) g
      = l.filter (fun r => (lower r.gender == lower g) && (lower r.studysubject == lower s)) := by
  simp only [filterBySubject, filterByGender, List.filter_filter]

/-- C1: composing filterByGender then filterBySubject selects exactly the
records matching both predicates (case-insensitively) in original order; the
two application orders agree; and in particular the "male"/"Medicine"
composition over the store equals the conjunctive selection over the store. -/
theorem filters_conjunctive_and_commute (l : List Student) (g s : String) :
    filterBySubject (filterByGender l g) s
      = l.filter (fun r => (lower r.gender == lower g) && (lower r.studysubject == lower s))
    ∧ filterBySubject (filterByGender l g) s = filterByGender (filterBySubject l s) g
    ∧ filterBySubject (filterByGender students "male") "Medicine"
      = students.filter (fun r =>
          (lower r.gender == lower "male") && (lower r.studysubject == lower "Medicine")) :=
  ⟨gender_then_subject_eq l g s,
   (gender_then_subject_eq l g s).trans (subject_then_gender_eq l g s).symm,
   gender_then_subject_eq students "male" "Medicine"⟩

/-- C2: filterByCity returns exactly the subsequence of records whose city
matches case-insensitively; it is total, yields the empty list on empty
input, and yields the empty list when no record matches. -/
theorem filterByCity_spec (l : List Student) (c : String) :
    (∀ r, r ∈ filterByCity l c ↔ r ∈ l ∧ (lower r.city == lower c) = true)
    ∧ (filterByCity l c).Sublist l
    ∧ filterByCity [] c = []
    ∧ ((∀ r ∈ l, (lower r.city == lower c) = false) → filterByCity l c = []) := by
  refine ⟨fun r => ?_, List.filter_sublist l, rfl, fun h => ?_⟩
  · simp only [filterByCity, List.mem_filter]
  · rw [filterByCity, List.filter_eq_nil_iff]
    intro a ha
    simp [h a ha]

/-- Witness for C2: on the store and the absent city "Atlantis", the
no-match hypothesis holds and the filter returns the empty list. -/
theorem filterByCity_spec_witness : filterByCity students "Atlantis" = [] :=
  (filterByCity_spec students "Atlantis").2.2.2 (by decide)

/-- C3: findById returns the first record whose ID field equals the argument
exactly (all earlier records differ), and returns none exactly when no
record matches; being a total function it never throws. -/
theorem findById_spec (l : List Student) (i : String) :
    (∀ r, findById l i = some r →
        r.ID = i ∧ ∃ l₁ l₂, l = l₁ ++ r :: l₂ ∧ ∀ x ∈ l₁, x.ID ≠ i)
    ∧ (findById l i = none ↔ ∀ r ∈ l, r.ID ≠ i) := by
  constructor
  · intro r h
    rw [findById, List.find?_eq_some] at h
    obtain ⟨hp, as, bs, heq, hprev⟩ := h
    exact ⟨by simpa using hp, as, bs, heq, fun x hx => by simpa using hprev x hx⟩
  · rw [findById, List.find?_eq_none]
    simp

/-- Witness for C3: at the concrete id "S999" the no-match hypothesis holds
on the store and findById returns none. -/
theorem findById_spec_witness : findById students "S999" = none :=
  (findById_spec students "S999").2.mpr (by decide)

/-- C4: every filter produces a sublist of its input: surviving records come
from the input and keep their relative order (stable selection). -/
theorem filters_sublist (l : List Student) (c s g n : String) :
    (filterByCity l c).Sublist l ∧ (filterBySubject l s).Sublist l
    ∧ (filterByGender l g).Sublist l ∧ (filterByName l n).Sublist l :=
  ⟨List.filter_sublist l, List.filter_sublist l, List.filter_sublist l, List.filter_sublist l⟩

/-- C5: filterByName keeps exactly the records whose firstname OR lastname
equals the argument under case-insensitive full-string comparison. -/
theorem filterByName_spec (l : List Student) (n : String) :
    ∀ r, r ∈ filterByName l n ↔
      r ∈ l ∧ (lower r.firstname == lower n || lower r.lastname == lower n) = true := by
  intro r
  simp only [filterByName, List.mem_filter]

/-- Counterexample for C6: "MUNICH" does not occur as the city field of any
record of the store, yet filterByCity on the store with "MUNICH" is not
empty, because the filter compares cities case-insensitively. -/
theorem filterByCity_absent_city_counterexample :
    (∀ r ∈ students, r.city ≠ "MUNICH") ∧ filterByCity students "MUNICH" ≠ [] := by
  decide

/-- C6 (amended): for every city value C that is absent from the store under
the case-insensitive comparison the filter uses (no record city lowercases
to the lowercase of C), filterByCity on the store returns the empty list. -/
theorem filterByCity_absent_city_empty (C : String)
    (h : ∀ r ∈ students, (lower r.city == lower C) = false) :
    filterByCity students C = [] := by
  rw [filterByCity, List.filter_eq_nil_iff]
  intro a ha
  simp [h a ha]

/-- Witness for amended C6: "Berlin" matches no store city even
case-insensitively, and the filter returns the empty list. -/
theorem filterByCity_absent_city_empty_witness : filterByCity students "Berlin" = [] :=
  filterByCity_absent_city_empty "Berlin" (by decide)

/-- Helper: one filterBySubject application is idempotent, by collapsing the
repeated predicate. -/
theorem filterBySubject_idem (l : List Student) (s : String) :
    filterBySubject (filterBySubject l s) s = filterBySubject l s := by
  simp only [filterBySubject, List.filter_filter, Bool.and_self]

/-- C7: filterBySubject is idempotent on every input, and in particular on
the store with subject "Physics". -/
theorem filterBySubject_idempotent (l : List Student) (s : String) :
    filterBySubject (filterBySubject l s) s = filterBySubject l s
    ∧ filterBySubject (filterBySubject students "Physics") "Physics"
        = filterBySubject students "Physics" :=
  ⟨filterBySubject_idem l s, filterBySubject_idem students "Physics"⟩

/-- Helper: when the mapped ID list of a store has no duplicates, at most
one record survives filtering by any given id. -/
theorem filter_id_length_le_one :
    ∀ (l : List Student) (i : String), (l.map Student.ID).Nodup →
      (l.filter (fun r => r.ID == i)).length ≤ 1 := by
  intro l i
  induction l with
  | nil => intro h; simp
  | cons a t ih =>
    intro h
    rw [List.map_cons, List.nodup_cons] at h
    rw [List.filter_cons]
    by_cases hai : (a.ID == i) = true
    · rw [if_pos hai]
      have ht : t.filter (fun r => r.ID == i) = [] := by
        rw [List.filter_eq_nil_iff]
        intro x hx hxi
        apply h.1
        have hxi2 : x.ID = i := by simpa using hxi
        have hai2 : a.ID = i := by simpa using hai
        rw [hai2, ← hxi2]
        exact List.mem_map_of_mem Student.ID hx
      simp [ht]
    · rw [if_neg hai]
      exact ih h.2

/-- C8: IDs at distinct positions of the store always differ, and hence at
most one store record matches any id (findById has at most one match). -/
theorem store_ids_unique :
    (∀ i j : Fin students.length, i ≠ j → (students.get i).ID ≠ (students.get j).ID)
    ∧ ∀ i : String, (students.filter (fun r => r.ID == i)).length ≤ 1 := by
  constructor
  · decide
  · exact fun i => filter_id_length_le_one students i (by decide)

/-- Witness for C8: the records at positions 0 and 1 of the store carry
different IDs. -/
theorem store_ids_unique_witness :
    (students.get ⟨0, by decide⟩).ID ≠ (students.get ⟨1, by decide⟩).ID :=
  store_ids_unique.1 ⟨0, by decide⟩ ⟨1, by decide⟩ (by decide)

/-- C9: on the store, findById with "S001" returns the record with firstname
"Anna" and lastname "Schmidt", and findById with "S999" returns none. -/
theorem findById_concrete :
    (findById students "S001").map Student.firstname = some "Anna"
    ∧ (findById students "S001").map Student.lastname = some "Schmidt"
    ∧ findById students "S999" = none := by
  decide

/-- C10: the store has 40 records; each of the four subjects selects exactly
10 records, 5 male and 5 female, and each gender selects exactly 20. -/
theorem store_composition_counts :
    students.length = 40
    ∧ ((filterBySubject students "Physics").length = 10
      ∧ (filterByGender (filterBySubject students "Physics") "male").length = 5
      ∧ (filterByGender (filterBySubject students "Physics") "female").length = 5)
    ∧ ((filterBySubject students "Mathematics").length = 10
      ∧ (filterByGender (filterBySubject students "Mathematics") "male").length = 5
      ∧ (filterByGender (filterBySubject students "Mathematics") "female").length = 5)
    ∧ ((filterBySubject students "Computer Science").length = 10
      ∧ (filterByGender (filterBySubject students "Computer Science") "male").length = 5
      ∧ (filterByGender (filterBySubject students "Computer Science") "female").length = 5)
    ∧ ((filterBySubject students "Medicine").length = 10
      ∧ (filterByGender (filterBySubject students "Medicine") "male").length = 5
      ∧ (filterByGender (filterBySubject students "Medicine") "female").length = 5)
    ∧ (filterByGender students "female").length = 20
    ∧ (filterByGender students "male").length = 20 := by
  decide

end StudentsJs
